import Mathlib

/-!
Verification of the tokkit token-manager and introspection client.

The definitions below are a shallow embedding of the Rust sources:

* `src/token_manager/internals/mod.rs` (token rows, states, clock helpers)
* `src/token_manager/internals/token_updater.rs` (`refresh_token`,
  `handle_error`, `update_token_ok`, `update_token_err`, `call_token_service`)
* `src/token_manager/internals/request_scheduler.rs`
  (`do_a_scheduling_round`, `check_notifications`)
* `src/token_manager/mod.rs` (group builder, `start_and_wait`)
* `src/token_manager/token_provider/mod.rs` (`evaluate_response`)
* `src/client.rs` (`get_with_fallback`)
* `src/async_client.rs` (`execute_with_retry`)

Modelling conventions: `u64` millisecond timestamps become `Nat`;
`f32` thresholds become `ℚ` with the Rust `as u64` conversion modelled as
floor/truncation (`Int.toNat ∘ Int.floor`), exact where the claims are
decided; mutation becomes explicit state passing; the provider and the
HTTP transport become explicit outcome arguments; wall-clock instants
become explicit `Nat` arguments or sequences.
-/

namespace Tokkit

/-- `AccessToken(pub String)` from `lib.rs`. -/
structure AccessToken where
  secret : String
deriving DecidableEq, Repr

/-- `Scope(pub String)` from `lib.rs`. -/
structure Scope where
  scope : String
deriving DecidableEq, Repr

/-- `std::time::Duration`: seconds plus sub-second nanoseconds. -/
structure Duration where
  secs : Nat
  subsec_nanos : Nat
deriving DecidableEq, Repr

/-- `millis_from_duration` from `token_manager/internals/mod.rs`:
`(d.as_secs() * 1000) + (d.subsec_nanos() / 1_000_000)`. -/
def millis_from_duration (d : Duration) : Nat :=
  d.secs * 1000 + d.subsec_nanos / 1000000

/-- `diff_millis` from `token_manager/internals/mod.rs` (saturating). -/
def diff_millis (start_millis end_millis : Nat) : Nat :=
  if start_millis > end_millis then 0 else end_millis - start_millis

/-- `minus_millis` from `token_manager/internals/mod.rs` (saturating). -/
def minus_millis (from_ms subtract : Nat) : Nat :=
  if subtract > from_ms then 0 else from_ms - subtract

/-- `AuthorizationServerErrorCode` from `token_provider/errors.rs`. -/
inductive AuthorizationServerErrorCode where
  | InvalidRequest
  | InvalidClient
  | InvalidGrant
  | UnauthorizedClient
  | UnsupportedGrantType
  | InvalidScope
deriving DecidableEq, Repr

/-- `AuthorizationRequestError` from `token_provider/errors.rs`. -/
structure AuthorizationRequestError where
  error : AuthorizationServerErrorCode
  error_description : Option String
  error_uri : Option String
deriving DecidableEq, Repr

/-- `AccessTokenProviderError` from `token_provider/errors.rs`; the
`CredentialsError` payload is abstracted to its message string. -/
inductive AccessTokenProviderError where
  | BadAuthorizationRequest (err : AuthorizationRequestError)
  | Client (msg : String)
  | Server (msg : String)
  | Connection (msg : String)
  | Parse (msg : String)
  | Credentials (msg : String)
  | Other (msg : String)
deriving DecidableEq, Repr

/-- The `fmt::Display` of `AccessTokenProviderError` (payload details of
the nested `AuthorizationRequestError` display are kept structural). -/
def AccessTokenProviderError.display : AccessTokenProviderError → String
  | .BadAuthorizationRequest _ => "Bad authorization request: " ++ "<detail>"
  | .Client msg => "Client error: " ++ msg
  | .Server msg => "Server error: " ++ msg
  | .Connection msg => "Connection error: " ++ msg
  | .Parse msg => "Parse error: " ++ msg
  | .Credentials msg => "Problem with credentials caused by " ++ msg
  | .Other msg => "Other error " ++ msg

/-- `AuthorizationServerResponse` from `token_provider/mod.rs`. -/
structure AuthorizationServerResponse where
  access_token : AccessToken
  expires_in : Duration
  refresh_token : Option String
deriving DecidableEq, Repr

/-- Result type of `AccessTokenProvider::request_access_token`. -/
abbrev AccessTokenProviderResult :=
  Except AccessTokenProviderError AuthorizationServerResponse

/-- `TokenErrorKind` from `token_manager/error.rs`. -/
inductive TokenErrorKind where
  | NoToken (id : String)
  | NotInitialized (id : String)
  | AccessTokenProvider (msg : String)
deriving DecidableEq, Repr

/-- The reader-visible result slot:
`StdResult<AccessToken, TokenErrorKind>`. -/
abbrev TokenSlot := Except TokenErrorKind AccessToken

/-- `TokenState` from `token_manager/internals/mod.rs`. -/
inductive TokenState where
  | Uninitialized
  | Initializing
  | Ok
  | OkPending
  | Error
  | ErrorPending
deriving DecidableEq, Repr

/-- `TokenState::is_refresh_pending`. -/
def TokenState.is_refresh_pending : TokenState → Bool
  | .Initializing | .OkPending | .ErrorPending => true
  | _ => false

/-- `TokenState::is_uninitialized`. -/
def TokenState.is_uninitialized : TokenState → Bool
  | .Uninitialized | .Initializing => true
  | _ => false

/-- `TokenRow` from `token_manager/internals/mod.rs`; the shared
provider reference is not part of the row state (provider outcomes are
passed explicitly to the updater operations). -/
structure TokenRow where
  token_id : String
  scopes : List Scope
  refresh_threshold : ℚ
  warning_threshold : ℚ
  last_touched : Nat
  refresh_at : Nat
  warn_at : Nat
  expires_at : Nat
  scheduled_for : Nat
  token_state : TokenState
  last_notification_at : Option Nat
deriving DecidableEq, Repr

/-- Rust `expr as u64` applied to the nonnegative `f32` product
`expires_in_ms as f32 * threshold`: truncation toward zero, modelled on
exact rationals. -/
def mul_threshold (expires_in_ms : Nat) (threshold : ℚ) : Nat :=
  (Int.floor ((expires_in_ms : ℚ) * threshold)).toNat

/-- `update_token_ok` from `token_updater.rs`: write the new token into
the slot and recompute every timer field from `now` and `expires_in`. -/
def update_token_ok (rsp : AuthorizationServerResponse) (row : TokenRow)
    (_slot : TokenSlot) (now : Nat) : TokenRow × TokenSlot :=
  let expires_in_ms := millis_from_duration rsp.expires_in
  ({ row with
      last_touched := now
      expires_at := now + expires_in_ms
      refresh_at := now + mul_threshold expires_in_ms row.refresh_threshold
      scheduled_for := now + mul_threshold expires_in_ms row.refresh_threshold
      token_state := TokenState.Ok
      warn_at := now + mul_threshold expires_in_ms row.warning_threshold },
   Except.ok rsp.access_token)

/-- `update_token_err` from `token_updater.rs`: write the error into the
slot, collapse the timers to `now` and reschedule depending on the old
state. -/
def update_token_err (err : AccessTokenProviderError) (row : TokenRow)
    (_slot : TokenSlot) (now : Nat) : TokenRow × TokenSlot :=
  let scheduled := match row.token_state with
    | .Uninitialized | .Initializing => now + 100
    | .Ok | .OkPending => now + 1000
    | .Error | .ErrorPending => now + 5000
  ({ row with
      last_touched := now
      expires_at := now
      refresh_at := now
      warn_at := now
      scheduled_for := scheduled
      token_state := TokenState.Error },
   Except.error (TokenErrorKind.AccessTokenProvider err.display))

/-- `TokenUpdater::handle_error` from `token_updater.rs`. -/
def handle_error (err : AccessTokenProviderError) (row : TokenRow)
    (slot : TokenSlot) (now : Nat) : TokenRow × TokenSlot :=
  match row.token_state with
  | .Uninitialized | .Initializing => update_token_err err row slot now
  | .Ok | .OkPending =>
      if row.expires_at ≤ now then update_token_err err row slot now
      else (row, slot)
  | .Error | .ErrorPending => update_token_err err row slot now

/-- `TokenUpdater::refresh_token` from `token_updater.rs`.  The third
component records whether the provider was called (the call to
`call_token_service`); `provider_result` is the surfaced outcome of that
call. -/
def refresh_token (row : TokenRow) (slot : TokenSlot)
    (command_timestamp : Nat) (provider_result : AccessTokenProviderResult)
    (now : Nat) : TokenRow × TokenSlot × Bool :=
  if row.last_touched ≤ command_timestamp || row.token_state.is_uninitialized then
    match provider_result with
    | .ok rsp =>
        let (row', slot') := update_token_ok rsp row slot now
        (row', slot', true)
    | .error err =>
        let (row', slot') := handle_error err row slot now
        (row', slot', true)
  else
    (row, slot, false)

/-- `backoff::Error`: transient errors are retried, permanent errors
surface immediately. -/
inductive BackoffError where
  | Transient (err : AccessTokenProviderError)
  | Permanent (err : AccessTokenProviderError)
deriving DecidableEq, Repr

/-- The classification match inside `call_token_service` in
`token_updater.rs`. -/
def classify_provider_outcome (r : AccessTokenProviderResult) :
    Except BackoffError AuthorizationServerResponse :=
  match r with
  | .ok rsp => .ok rsp
  | .error (.Server msg) => .error (.Transient (.Server msg))
  | .error (.BadAuthorizationRequest err) =>
      .error (.Permanent (.BadAuthorizationRequest err))
  | .error (.Connection msg) => .error (.Transient (.Connection msg))
  | .error (.Credentials msg) => .error (.Transient (.Credentials msg))
  | .error (.Other msg) => .error (.Transient (.Other msg))
  | .error (.Parse msg) => .error (.Permanent (.Parse msg))
  | .error (.Client msg) => .error (.Permanent (.Client msg))

/-- The `Operation::retry` loop of the `backoff` crate as used by
`call_token_service`: `attempts n` is the provider outcome of the n-th
call, `fuel` is the number of retries the exponential backoff still
allows before `max_elapsed_time` is reached.  Returns the surfaced
result (transient and permanent wrappers both unwrapped, as in the final
`map_err`) together with the number of provider calls made. -/
def call_token_service_from (attempts : Nat → AccessTokenProviderResult) :
    Nat → Nat → AccessTokenProviderResult × Nat
  | n, fuel =>
    match classify_provider_outcome (attempts n) with
    | .ok rsp => (.ok rsp, n + 1)
    | .error (.Permanent err) => (.error err, n + 1)
    | .error (.Transient err) =>
        match fuel with
        | 0 => (.error err, n + 1)
        | fuel' + 1 => call_token_service_from attempts (n + 1) fuel'

/-- `call_token_service` from `token_updater.rs`. -/
def call_token_service (attempts : Nat → AccessTokenProviderResult)
    (fuel : Nat) : AccessTokenProviderResult × Nat :=
  call_token_service_from attempts 0 fuel

/-- `ManagerCommand` from `token_manager/internals/mod.rs` (the
identifier type is `String` here). -/
inductive ManagerCommand where
  | ScheduledRefresh (idx : Nat) (timestamp : Nat)
  | ForceRefresh (token_id : String) (timestamp : Nat)
  | RefreshOnError (idx : Nat) (timestamp : Nat)
deriving DecidableEq, Repr

/-- The per-row decision of `RefreshScheduler::do_a_scheduling_round` in
`request_scheduler.rs`: when `scheduled_for ≤ now`, emit the command for
the row's state and move to the corresponding pending state. -/
def sched_row_decision (row : TokenRow) (idx now : Nat) :
    TokenRow × Option ManagerCommand :=
  if row.scheduled_for ≤ now then
    match row.token_state with
    | .Uninitialized =>
        ({ row with token_state := .Initializing },
         some (.ScheduledRefresh idx now))
    | .Initializing => (row, none)
    | .Ok =>
        ({ row with token_state := .OkPending },
         some (.ScheduledRefresh idx now))
    | .OkPending => (row, none)
    | .Error =>
        ({ row with token_state := .ErrorPending },
         some (.RefreshOnError idx now))
    | .ErrorPending => (row, none)
  else (row, none)

/-- `RefreshScheduler::check_notifications` from `request_scheduler.rs`;
only `last_notification_at` is ever modified. -/
def check_notifications (row : TokenRow) (now interval : Nat) : TokenRow :=
  let notify := match row.last_notification_at with
    | some last_notified => decide (interval ≤ minus_millis now last_notified)
    | none => true
  if notify then
    let notified := match row.token_state with
      | .Error | .ErrorPending => true
      | .Ok | .OkPending =>
          if row.expires_at ≤ now then true
          else if row.warn_at ≤ now then true
          else false
      | .Uninitialized | .Initializing => false
    if notified then { row with last_notification_at := some now } else row
  else row

/-- Index targeted by a scheduler-emitted command (`ForceRefresh` is
addressed by identifier, not index). -/
def ManagerCommand.idx : ManagerCommand → Option Nat
  | .ScheduledRefresh i _ => some i
  | .RefreshOnError i _ => some i
  | .ForceRefresh _ _ => none

/-- Timestamp carried by a command. -/
def ManagerCommand.ts : ManagerCommand → Nat
  | .ScheduledRefresh _ t => t
  | .RefreshOnError _ t => t
  | .ForceRefresh _ t => t

/-- Shared state of the scheduler/updater pair: the row vector, the
reader-visible slots (paired one-to-one with the rows) and the command
channel (scheduler-emitted commands, FIFO). -/
structure SchedulerUpdaterState where
  rows : List TokenRow
  slots : List TokenSlot
  chan : List ManagerCommand

/-- Interleaved steps of the scheduler and updater threads.  A scheduler
step handles one row of `do_a_scheduling_round` (the per-row lock is
released between rows, so per-row granularity covers every interleaving
of the real loop); an updater step consumes the channel head and runs
`refresh_token` with an arbitrary provider outcome.  Clock reads are
arbitrary naturals. -/
inductive SchedStep : SchedulerUpdaterState → SchedulerUpdaterState → Prop where
  | sched (s : SchedulerUpdaterState) (i now interval : Nat) (row : TokenRow)
      (hrow : s.rows[i]? = some row) :
      SchedStep s
        { rows := s.rows.set i
            (check_notifications (sched_row_decision row i now).1 now interval)
          slots := s.slots
          chan := s.chan ++ (sched_row_decision row i now).2.toList }
  | updater (s : SchedulerUpdaterState) (cmd : ManagerCommand)
      (rest : List ManagerCommand) (i : Nat) (row : TokenRow)
      (slot : TokenSlot) (res : AccessTokenProviderResult) (now : Nat)
      (hchan : s.chan = cmd :: rest) (hidx : cmd.idx = some i)
      (hrow : s.rows[i]? = some row) (hslot : s.slots[i]? = some slot) :
      SchedStep s
        { rows := s.rows.set i (refresh_token row slot cmd.ts res now).1
          slots := s.slots.set i (refresh_token row slot cmd.ts res now).2.1
          chan := rest }

/-- Number of outstanding scheduler-emitted commands for row `i`. -/
def outstanding_for (chan : List ManagerCommand) (i : Nat) : Nat :=
  (chan.filter (fun c => c.idx = some i)).length

/-- The pending-states invariant: per row at most one scheduler-emitted
command is outstanding, and an outstanding command implies the row is in
a `Pending`/`Initializing` state. -/
def PendingInvariant (s : SchedulerUpdaterState) : Prop :=
  ∀ i : Nat, outstanding_for s.chan i ≤ 1 ∧
    (∀ row : TokenRow, s.rows[i]? = some row →
      1 ≤ outstanding_for s.chan i → row.token_state.is_refresh_pending = true)

/-- The poll predicate of `AccessTokenManager::start_and_wait` in
`token_manager/mod.rs`: transcribed from
`if let Err(NotInitialized) = get_access_token(id) then true else false`
over all registered identifiers, `.all`-combined. -/
def all_initialized (slots : List TokenSlot) : Bool :=
  slots.all fun s =>
    match s with
    | .error (.NotInitialized _) => true
    | _ => false

/-- Modelled from the spec's words (refinement target for C4): every
slot has left the `NotInitialized` state. -/
def spec_all_left_not_initialized (slots : List TokenSlot) : Bool :=
  slots.all fun s =>
    match s with
    | .error (.NotInitialized _) => false
    | _ => true

/-- The wait loop of `start_and_wait`: `snapshots k` is the slot map
observed at the k-th poll (10 ms apart), `timeout_ms` the timeout.
Checks the elapsed time first, then the poll predicate, then sleeps.
`fuel` bounds the recursion (the real loop terminates because elapsed
time grows by 10 ms per iteration). -/
def start_and_wait_loop (snapshots : Nat → List TokenSlot)
    (timeout_ms : Nat) : Nat → Nat → Except String Unit
  | k, fuel =>
    if timeout_ms ≤ 10 * k then
      .error "Not all tokens were initialized within the given time."
    else if all_initialized (snapshots k) then .ok ()
    else
      match fuel with
      | 0 => .error "Not all tokens were initialized within the given time."
      | fuel' + 1 => start_and_wait_loop snapshots timeout_ms (k + 1) fuel'

/-- `AccessTokenManager::start_and_wait`, wait phase. -/
def start_and_wait (snapshots : Nat → List TokenSlot)
    (timeout_ms : Nat) : Except String Unit :=
  start_and_wait_loop snapshots timeout_ms 0 (timeout_ms / 10 + 1)

/-- `ManagedToken` from `token_manager/mod.rs`. -/
structure ManagedToken where
  token_id : String
  scopes : List Scope
deriving DecidableEq, Repr

/-- `ManagedTokenGroup` from `token_manager/mod.rs` (the provider
reference is abstracted to a unit marker). -/
structure ManagedTokenGroup where
  managed_tokens : List ManagedToken
  refresh_threshold : ℚ
  warning_threshold : ℚ
deriving DecidableEq, Repr

/-- `ManagedTokenGroupBuilder` from `token_manager/mod.rs` (provider
presence tracked as an `Option Unit`). -/
structure ManagedTokenGroupBuilder where
  token_provider : Option Unit
  managed_tokens : List ManagedToken
  refresh_threshold : ℚ
  warning_threshold : ℚ
deriving DecidableEq, Repr

/-- `ManagedTokenGroupBuilder::default`. -/
def ManagedTokenGroupBuilder.default_builder : ManagedTokenGroupBuilder :=
  { token_provider := none
    managed_tokens := []
    refresh_threshold := 3 / 4
    warning_threshold := 17 / 20 }

/-- `ManagedTokenGroupBuilder::with_refresh_threshold`. -/
def ManagedTokenGroupBuilder.with_refresh_threshold
    (b : ManagedTokenGroupBuilder) (refresh_threshold : ℚ) :
    ManagedTokenGroupBuilder :=
  { b with refresh_threshold := refresh_threshold }

/-- `ManagedTokenGroupBuilder::with_warning_threshold`, transcribed from
the source: the body assigns the argument to `self.refresh_threshold`. -/
def ManagedTokenGroupBuilder.with_warning_threshold
    (b : ManagedTokenGroupBuilder) (warning_threshold : ℚ) :
    ManagedTokenGroupBuilder :=
  { b with refresh_threshold := warning_threshold }

/-- `ManagedTokenGroupBuilder::build` with its validation checks. -/
def ManagedTokenGroupBuilder.build (b : ManagedTokenGroupBuilder) :
    Except String ManagedTokenGroup :=
  match b.token_provider with
  | none => .error "Token service is mandatory"
  | some _ =>
    if b.managed_tokens.isEmpty then
      .error "Managed Tokens must not be empty"
    else if b.refresh_threshold ≤ 0 ∨ 1 < b.refresh_threshold then
      .error "Refresh threshold must be of (0;1]"
    else if b.warning_threshold ≤ 0 ∨ 1 < b.warning_threshold then
      .error "Warning threshold must be of (0;1]"
    else
      .ok { managed_tokens := b.managed_tokens
            refresh_threshold := b.refresh_threshold
            warning_threshold := b.warning_threshold }

/-- `TokenInfo` from `lib.rs` (normalized introspection result). -/
structure TokenInfo where
  active : Bool
  user_id : Option String
  scope : List Scope
  expires_in_seconds : Option Nat
deriving DecidableEq, Repr

/-- `TokenInfoErrorKind` from `error.rs`. -/
inductive TokenInfoErrorKind where
  | InvalidResponseContent (msg : String)
  | UrlError (msg : String)
  | NotAuthenticated (msg : String)
  | Connection (msg : String)
  | Io (msg : String)
  | Client (msg : String)
  | Server (msg : String)
  | Other (msg : String)
  | BudgetExceeded
deriving DecidableEq, Repr

/-- `TokenInfoError::is_retry_suggested` from `error.rs`. -/
def TokenInfoErrorKind.is_retry_suggested : TokenInfoErrorKind → Bool
  | .InvalidResponseContent _ => false
  | .UrlError _ => false
  | .NotAuthenticated _ => false
  | .Connection _ => true
  | .Io _ => true
  | .Client _ => false
  | .Server _ => true
  | .Other _ => true
  | .BudgetExceeded => false

/-- Outcome of one introspection HTTP round trip. -/
abbrev TokenInfoResult := Except TokenInfoErrorKind TokenInfo

/-- `get_with_fallback` from `client.rs` (identically structured in
`token_info/remote.rs`): `primary` is the primary endpoint's outcome,
`fallback` is, when a fallback endpoint is configured, the outcome its
call would produce.  The boolean records whether the fallback endpoint
was actually called. -/
def get_with_fallback (primary : TokenInfoResult)
    (fallback : Option TokenInfoResult) : TokenInfoResult × Bool :=
  match primary with
  | .ok info => (.ok info, false)
  | .error err =>
    match err with
    | .Client m => (.error (.Client m), false)
    | _ =>
      match fallback with
      | some fb_result => (fb_result, true)
      | none => (.error err, false)

/-- The `RetryIf` loop inside `execute_with_retry` in `async_client.rs`.
`deadline` is `start + budget` (start taken as 0); `act_times n` is the
clock reading when attempt `n` would start, `cond_times n` the reading
at the retry-condition check after a failed attempt `n`; `outcomes n`
the result of the n-th HTTP call.  Returns the surfaced result and the
number of HTTP calls performed; `fuel` bounds the retries. -/
def execute_with_retry_loop (deadline : Nat) (act_times cond_times : Nat → Nat)
    (outcomes : Nat → TokenInfoResult) :
    Nat → Nat → Nat → TokenInfoResult × Nat
  | n, calls, fuel =>
    let (res, calls') :=
      if act_times n ≤ deadline then (outcomes n, calls + 1)
      else (.error .BudgetExceeded, calls)
    match res with
    | .ok info => (.ok info, calls')
    | .error err =>
      if cond_times n ≤ deadline && err.is_retry_suggested then
        match fuel with
        | 0 => (.error err, calls')
        | fuel' + 1 =>
            execute_with_retry_loop deadline act_times cond_times outcomes
              (n + 1) calls' fuel'
      else (.error err, calls')

/-- `execute_with_retry` from `async_client.rs`, including the zero
budget early return. -/
def execute_with_retry (budget_ms : Nat) (act_times cond_times : Nat → Nat)
    (outcomes : Nat → TokenInfoResult) (fuel : Nat) : TokenInfoResult × Nat :=
  if budget_ms = 0 then
    (.error (.Other "Initial reuest budget was 0"), 0)
  else
    execute_with_retry_loop budget_ms act_times cond_times outcomes 0 0 fuel

/-- `evaluate_response` from `token_manager/token_provider/mod.rs`.
`status` is the HTTP status code; `parse_response_result` and
`parse_error_result` stand for the two JSON parsing helpers it calls
(their internals are JSON decoding); `body_utf8` is the body when it is
valid UTF-8 (`str::from_utf8` maps a UTF-8 failure into `Other` via the
`From<Utf8Error>` impl in `token_provider/errors.rs`). -/
def evaluate_response (status : Nat)
    (parse_response_result : AccessTokenProviderResult)
    (parse_error_result : Except AccessTokenProviderError AuthorizationRequestError)
    (body_utf8 : Option String) : AccessTokenProviderResult :=
  if status = 200 then parse_response_result
  else if status = 400 then
    match parse_error_result with
    | .ok err => .error (.BadAuthorizationRequest err)
    | .error pe => .error pe
  else if 400 ≤ status ∧ status ≤ 499 then
    match body_utf8 with
    | some body =>
        .error (.Server
          ("The request sent to the authorization server was faulty(" ++
            toString status ++ "): " ++ body))
    | none => .error (.Other "invalid utf-8 sequence")
  else if 500 ≤ status ∧ status ≤ 599 then
    match body_utf8 with
    | some body =>
        .error (.Server
          ("The authorization server returned an error(" ++
            toString status ++ "): " ++ body))
    | none => .error (.Other "invalid utf-8 sequence")
  else
    match body_utf8 with
    | some body =>
        .error (.Client
          ("Received unexpected status code(" ++ toString status ++
            ") from authorization server: " ++ body))
    | none => .error (.Other "invalid utf-8 sequence")

/-! ### Concrete fixtures used by witnesses and counterexamples -/

/-- A freshly created row (`create_rows` at `now = 0`, default
thresholds 0.75 / 0.85). -/
def sample_row : TokenRow :=
  { token_id := "token"
    scopes := [⟨"scope"⟩]
    refresh_threshold := 3 / 4
    warning_threshold := 17 / 20
    last_touched := 0
    refresh_at := 0
    warn_at := 0
    expires_at := 0
    scheduled_for := 0
    token_state := .Uninitialized
    last_notification_at := none }

/-- A row holding a still-valid token. -/
def ok_row : TokenRow :=
  { sample_row with
      token_state := .Ok
      last_touched := 5
      refresh_at := 750
      warn_at := 850
      expires_at := 1000 }

/-- A provider response with a one-second expiry
(`DummyAccessTokenProvider` in the updater tests). -/
def sample_rsp : AuthorizationServerResponse :=
  { access_token := ⟨"0"⟩, expires_in := ⟨1, 0⟩, refresh_token := none }

/-- A provider response whose token expires immediately
(`expires_in = 0`). -/
def zero_rsp : AuthorizationServerResponse :=
  { access_token := ⟨"A"⟩, expires_in := ⟨0, 0⟩, refresh_token := none }

/-- A row awaiting refresh with the default thresholds. -/
def ok_pending_row : TokenRow :=
  { sample_row with token_state := .OkPending, last_touched := 50 }

/-- A row whose thresholds are both 1 (accepted by the builder's `(0;1]`
validation). -/
def unit_threshold_row : TokenRow :=
  { sample_row with refresh_threshold := 1, warning_threshold := 1 }

/-- A fully configured builder with integral thresholds. -/
def sample_builder : ManagedTokenGroupBuilder :=
  { token_provider := some ()
    managed_tokens := [⟨"token", [⟨"scope"⟩]⟩]
    refresh_threshold := 1
    warning_threshold := 1 }

/-- The group `sample_builder` builds. -/
def sample_group : ManagedTokenGroup :=
  { managed_tokens := [⟨"token", [⟨"scope"⟩]⟩]
    refresh_threshold := 1
    warning_threshold := 1 }

/-- The slot map of a freshly started manager with one token. -/
def fresh_slots : List TokenSlot := [.error (.NotInitialized "token")]

/-- The introspection result served by the fallback endpoint in the
concrete scenarios. -/
def fallback_info : TokenInfo :=
  { active := true
    user_id := some "u"
    scope := [⟨"s"⟩]
    expires_in_seconds := some 60 }

/-! ### Theorems -/

/-- C1: for a row in state `Ok` or `OkPending` whose validity window has
not elapsed (`now < expires_at`), `handle_error` leaves the result slot
and the entire row — in particular `last_touched`, `refresh_at`,
`warn_at`, `expires_at` and `scheduled_for` — unchanged. -/
theorem handle_error_keeps_valid_token (err : AccessTokenProviderError)
    (row : TokenRow) (slot : TokenSlot) (now : Nat)
    (hstate : row.token_state = .Ok ∨ row.token_state = .OkPending)
    (hvalid : now < row.expires_at) :
    handle_error err row slot now = (row, slot) := by
  rcases hstate with h | h <;>
    · unfold handle_error
      rw [h]
      simp only [if_neg (Nat.not_le.mpr hvalid)]

/-- Witness for C1 at a concrete still-valid `Ok` row. -/
theorem handle_error_keeps_valid_token_witness :
    handle_error (.Server "upstream 503") ok_row (.ok ⟨"A"⟩) 10 =
      (ok_row, .ok ⟨"A"⟩) :=
  handle_error_keeps_valid_token _ _ _ _ (Or.inl rfl) (by decide)


/-- C2, counterexample: a `ScheduledRefresh` whose timestamp equals the
row's `last_touched` (here both 5) on an already-initialized row (`Ok`)
is NOT a no-op — the provider is called and the row is modified.  This
matches the repo's own test
`does_initialize_token_twice_when_time_did_not_increase`. -/
theorem refresh_token_equal_timestamp_not_noop :
    (refresh_token ok_row (.ok ⟨"old"⟩) 5 (.ok sample_rsp) 5).2.2 = true ∧
    (refresh_token ok_row (.ok ⟨"old"⟩) 5 (.ok sample_rsp) 5).1.expires_at = 1005 ∧
    ok_row.expires_at = 1000 ∧
    (refresh_token ok_row (.ok ⟨"old"⟩) 5 (.ok sample_rsp) 5).2.1 = .ok ⟨"0"⟩ := by
  refine ⟨rfl, rfl, rfl, rfl⟩

/-- C2, amended: only a strictly older command (`ts < last_touched`) on
an already-initialized row is a no-op: the provider is not called and
the row and slot are returned unchanged. -/
theorem refresh_token_stale_strict_noop (row : TokenRow) (slot : TokenSlot)
    (ts : Nat) (res : AccessTokenProviderResult) (now : Nat)
    (hinit : row.token_state.is_uninitialized = false)
    (hstale : ts < row.last_touched) :
    refresh_token row slot ts res now = (row, slot, false) := by
  unfold refresh_token
  rw [if_neg]
  simp only [hinit, Bool.or_false, decide_eq_true_eq]
  exact Nat.not_le.mpr hstale

/-- Witness for the amended C2 at a concrete row (`Ok`,
`last_touched = 5`, command timestamp 4). -/
theorem refresh_token_stale_strict_noop_witness :
    refresh_token ok_row (.ok ⟨"0"⟩) 4 (.ok sample_rsp) 4 =
      (ok_row, .ok ⟨"0"⟩, false) :=
  refresh_token_stale_strict_noop _ _ _ _ _ (by decide) (by decide)


/-- Monotonicity of the threshold product under the `as u64`
truncation. -/
theorem mul_threshold_mono (e : Nat) {a b : ℚ} (_ha : 0 ≤ a) (hab : a ≤ b) :
    mul_threshold e a ≤ mul_threshold e b := by
  have : (e : ℚ) * a ≤ (e : ℚ) * b :=
    mul_le_mul_of_nonneg_left hab (by positivity)
  exact Int.toNat_le_toNat (Int.floor_le_floor this)

/-- A threshold of at most 1 never pushes past `expires_in`. -/
theorem mul_threshold_le_self (e : Nat) {t : ℚ} (ht : t ≤ 1) :
    mul_threshold e t ≤ e := by
  have h1 : (e : ℚ) * t ≤ (e : ℚ) := by
    calc (e : ℚ) * t ≤ (e : ℚ) * 1 :=
          mul_le_mul_of_nonneg_left ht (by positivity)
      _ = (e : ℚ) := mul_one _
  have h2 : Int.floor ((e : ℚ) * t) ≤ (e : ℤ) := by
    have := Int.floor_le_floor h1
    simpa using this
  calc mul_threshold e t = (Int.floor ((e : ℚ) * t)).toNat := rfl
    _ ≤ (e : ℤ).toNat := Int.toNat_le_toNat h2
    _ = e := Int.toNat_natCast e

/-- C3, counterexample: a successful refresh whose `expires_in` is zero
(clock 100, default thresholds) yields
`refresh_at = warn_at = expires_at = 100`, so the claimed strict
ordering `refresh_at < warn_at < expires_at` fails. -/
theorem update_token_ok_strict_ordering_fails :
    (update_token_ok zero_rsp ok_pending_row (.ok ⟨"old"⟩) 100).1.refresh_at = 100 ∧
    (update_token_ok zero_rsp ok_pending_row (.ok ⟨"old"⟩) 100).1.warn_at = 100 ∧
    (update_token_ok zero_rsp ok_pending_row (.ok ⟨"old"⟩) 100).1.expires_at = 100 ∧
    ¬ ((update_token_ok zero_rsp ok_pending_row (.ok ⟨"old"⟩) 100).1.refresh_at <
         (update_token_ok zero_rsp ok_pending_row (.ok ⟨"old"⟩) 100).1.warn_at ∧
       (update_token_ok zero_rsp ok_pending_row (.ok ⟨"old"⟩) 100).1.warn_at <
         (update_token_ok zero_rsp ok_pending_row (.ok ⟨"old"⟩) 100).1.expires_at) := by
  refine ⟨?_, ?_, ?_, ?_⟩ <;>
    simp [update_token_ok, millis_from_duration, zero_rsp, mul_threshold]

/-- C3, amended: after a successful refresh the slot holds the new
token, `last_touched = now`, `expires_at = now + expires_in`,
`refresh_at = scheduled_for = now + ⌊expires_in · refresh_threshold⌋`,
`warn_at = now + ⌊expires_in · warning_threshold⌋`, the state is `Ok`,
and — when `0 ≤ refresh_threshold ≤ warning_threshold ≤ 1` as the
builder guarantees — the non-strict ordering
`refresh_at ≤ warn_at ≤ expires_at` holds (strictness can fail, e.g. at
`expires_in = 0`). -/
theorem update_token_ok_fields (rsp : AuthorizationServerResponse)
    (row : TokenRow) (slot : TokenSlot) (now : Nat)
    (h0 : 0 ≤ row.refresh_threshold)
    (h1 : row.refresh_threshold ≤ row.warning_threshold)
    (h2 : row.warning_threshold ≤ 1) :
    (update_token_ok rsp row slot now).2 = .ok rsp.access_token ∧
    (update_token_ok rsp row slot now).1.last_touched = now ∧
    (update_token_ok rsp row slot now).1.expires_at =
      now + millis_from_duration rsp.expires_in ∧
    (update_token_ok rsp row slot now).1.refresh_at =
      now + mul_threshold (millis_from_duration rsp.expires_in)
        row.refresh_threshold ∧
    (update_token_ok rsp row slot now).1.warn_at =
      now + mul_threshold (millis_from_duration rsp.expires_in)
        row.warning_threshold ∧
    (update_token_ok rsp row slot now).1.scheduled_for =
      (update_token_ok rsp row slot now).1.refresh_at ∧
    (update_token_ok rsp row slot now).1.token_state = .Ok ∧
    (update_token_ok rsp row slot now).1.refresh_at ≤
      (update_token_ok rsp row slot now).1.warn_at ∧
    (update_token_ok rsp row slot now).1.warn_at ≤
      (update_token_ok rsp row slot now).1.expires_at := by
  refine ⟨rfl, rfl, rfl, rfl, rfl, rfl, rfl, ?_, ?_⟩
  · exact Nat.add_le_add_left (mul_threshold_mono _ h0 h1) now
  · exact Nat.add_le_add_left (mul_threshold_le_self _ h2) now

/-- Witness for the amended C3 at thresholds 1 and a one-second
`expires_in` at clock 100. -/
theorem update_token_ok_fields_witness :
    (update_token_ok sample_rsp unit_threshold_row (.ok ⟨"old"⟩) 100).2 =
      .ok sample_rsp.access_token ∧
    (update_token_ok sample_rsp unit_threshold_row (.ok ⟨"old"⟩) 100).1.last_touched = 100 ∧
    (update_token_ok sample_rsp unit_threshold_row (.ok ⟨"old"⟩) 100).1.expires_at =
      100 + millis_from_duration sample_rsp.expires_in ∧
    (update_token_ok sample_rsp unit_threshold_row (.ok ⟨"old"⟩) 100).1.refresh_at =
      100 + mul_threshold (millis_from_duration sample_rsp.expires_in)
        unit_threshold_row.refresh_threshold ∧
    (update_token_ok sample_rsp unit_threshold_row (.ok ⟨"old"⟩) 100).1.warn_at =
      100 + mul_threshold (millis_from_duration sample_rsp.expires_in)
        unit_threshold_row.warning_threshold ∧
    (update_token_ok sample_rsp unit_threshold_row (.ok ⟨"old"⟩) 100).1.scheduled_for =
      (update_token_ok sample_rsp unit_threshold_row (.ok ⟨"old"⟩) 100).1.refresh_at ∧
    (update_token_ok sample_rsp unit_threshold_row (.ok ⟨"old"⟩) 100).1.token_state = .Ok ∧
    (update_token_ok sample_rsp unit_threshold_row (.ok ⟨"old"⟩) 100).1.refresh_at ≤
      (update_token_ok sample_rsp unit_threshold_row (.ok ⟨"old"⟩) 100).1.warn_at ∧
    (update_token_ok sample_rsp unit_threshold_row (.ok ⟨"old"⟩) 100).1.warn_at ≤
      (update_token_ok sample_rsp unit_threshold_row (.ok ⟨"old"⟩) 100).1.expires_at :=
  update_token_ok_fields sample_rsp unit_threshold_row (.ok ⟨"old"⟩) 100
    zero_le_one (le_refl 1) (le_refl 1)

/-- A provider call whose every attempt fails with a transient-classified
error is retried until the backoff fuel is exhausted and then surfaces
that error, after `fuel + 1` calls. -/
theorem call_token_service_from_transient (err : AccessTokenProviderError)
    (hclass : classify_provider_outcome (.error err) = .error (.Transient err)) :
    ∀ (fuel n : Nat),
      call_token_service_from (fun _ => .error err) n fuel =
        (.error err, n + fuel + 1) := by
  intro fuel
  induction fuel with
  | zero =>
      intro n
      simp [call_token_service_from, hclass]
  | succ fuel' ih =>
      intro n
      rw [call_token_service_from, hclass]
      show call_token_service_from (fun _ => .error err) (n + 1) fuel' =
        (.error err, n + (fuel' + 1) + 1)
      rw [ih (n + 1)]
      congr 1
      omega

/-- C9: inside the updater's retry wrapper, `Server`, `Connection`,
`Credentials` and `Other` provider errors are transient — the call is
retried until the backoff is exhausted (`fuel + 1` provider calls) and
only then surfaced — while `BadAuthorizationRequest`, `Parse` and
`Client` are permanent and surface immediately after a single call. -/
theorem call_token_service_classification (fuel : Nat) (msg : String)
    (areq : AuthorizationRequestError) :
    (call_token_service (fun _ => .error (.Server msg)) fuel =
      (.error (.Server msg), fuel + 1)) ∧
    (call_token_service (fun _ => .error (.Connection msg)) fuel =
      (.error (.Connection msg), fuel + 1)) ∧
    (call_token_service (fun _ => .error (.Credentials msg)) fuel =
      (.error (.Credentials msg), fuel + 1)) ∧
    (call_token_service (fun _ => .error (.Other msg)) fuel =
      (.error (.Other msg), fuel + 1)) ∧
    (call_token_service (fun _ => .error (.BadAuthorizationRequest areq)) fuel =
      (.error (.BadAuthorizationRequest areq), 1)) ∧
    (call_token_service (fun _ => .error (.Parse msg)) fuel =
      (.error (.Parse msg), 1)) ∧
    (call_token_service (fun _ => .error (.Client msg)) fuel =
      (.error (.Client msg), 1)) := by
  refine ⟨?_, ?_, ?_, ?_, ?_, ?_, ?_⟩
  · simpa using call_token_service_from_transient (.Server msg) rfl fuel 0
  · simpa using call_token_service_from_transient (.Connection msg) rfl fuel 0
  · simpa using call_token_service_from_transient (.Credentials msg) rfl fuel 0
  · simpa using call_token_service_from_transient (.Other msg) rfl fuel 0
  · cases fuel <;>
      simp [call_token_service, call_token_service_from, classify_provider_outcome]
  · cases fuel <;>
      simp [call_token_service, call_token_service_from, classify_provider_outcome]
  · cases fuel <;>
      simp [call_token_service, call_token_service_from, classify_provider_outcome]

/-- Whenever `build` succeeds, the produced group carries the builder's
`warning_threshold` field verbatim. -/
theorem build_ok_warning_threshold (b : ManagedTokenGroupBuilder)
    (g : ManagedTokenGroup) (h : b.build = .ok g) :
    g.warning_threshold = b.warning_threshold := by
  unfold ManagedTokenGroupBuilder.build at h
  rcases hb : b.token_provider with - | u
  · rw [hb] at h; cases h
  · rw [hb] at h
    by_cases h1 : b.managed_tokens.isEmpty
    · rw [if_pos h1] at h; cases h
    · rw [if_neg h1] at h
      by_cases h2 : b.refresh_threshold ≤ 0 ∨ 1 < b.refresh_threshold
      · rw [if_pos h2] at h; cases h
      · rw [if_neg h2] at h
        by_cases h3 : b.warning_threshold ≤ 0 ∨ 1 < b.warning_threshold
        · rw [if_pos h3] at h; cases h
        · rw [if_neg h3] at h
          cases h
          rfl

/-- C10: `with_warning_threshold(w)` writes `w` into the builder's
`refresh_threshold` field and leaves `warning_threshold` untouched, so
any group built afterwards keeps the warning threshold the builder
already had (0.85 with the defaults). -/
theorem with_warning_threshold_sets_refresh_threshold
    (b : ManagedTokenGroupBuilder) (w : ℚ) :
    (b.with_warning_threshold w).refresh_threshold = w ∧
    (b.with_warning_threshold w).warning_threshold = b.warning_threshold ∧
    ManagedTokenGroupBuilder.default_builder.warning_threshold = 17 / 20 ∧
    (∀ g : ManagedTokenGroup, (b.with_warning_threshold w).build = .ok g →
      g.warning_threshold = b.warning_threshold) := by
  exact ⟨rfl, rfl, rfl, fun g hg =>
    build_ok_warning_threshold (b.with_warning_threshold w) g hg⟩

/-- Witness for C10 at a concrete builder whose build succeeds. -/
theorem with_warning_threshold_sets_refresh_threshold_witness :
    (sample_builder.with_warning_threshold 1).refresh_threshold = 1 ∧
    (sample_builder.with_warning_threshold 1).warning_threshold =
      sample_builder.warning_threshold ∧
    ManagedTokenGroupBuilder.default_builder.warning_threshold = 17 / 20 ∧
    sample_group.warning_threshold = sample_builder.warning_threshold := by
  have h := with_warning_threshold_sets_refresh_threshold sample_builder 1
  exact ⟨h.1, h.2.1, h.2.2.1, h.2.2.2 sample_group rfl⟩

/-- C4: the wait loop of `start_and_wait` breaks successfully exactly
when its poll predicate holds, and that predicate is `true` on a fresh
slot map in which every slot still holds `NotInitialized` — the exact
opposite of "every slot has left `NotInitialized`" — so `start_and_wait`
returns success immediately on a manager none of whose tokens has been
initialized. -/
theorem start_and_wait_succeeds_while_uninitialized :
    start_and_wait (fun _ => fresh_slots) 1000 = .ok () ∧
    all_initialized fresh_slots = true ∧
    spec_all_left_not_initialized fresh_slots = false := by
  refine ⟨?_, rfl, rfl⟩
  rfl

/-- C5: with a fallback endpoint configured, a primary-side
`NotAuthenticated` (HTTP 401) error DOES trigger the fallback call
(only `Client` errors are returned directly), contradicting the
spec-mandated behaviour that 401 never triggers the fallback. -/
theorem get_with_fallback_called_on_not_authenticated :
    get_with_fallback
        (.error (.NotAuthenticated "The server refused the token: t"))
        (some (.ok fallback_info)) =
      (.ok fallback_info, true) ∧
    get_with_fallback (.error (.Client "bad request"))
        (some (.ok fallback_info)) =
      (.error (.Client "bad request"), false) ∧
    get_with_fallback (.error (.Server "oops"))
        (some (.ok fallback_info)) =
      (.ok fallback_info, true) := by
  exact ⟨rfl, rfl, rfl⟩

/-- C6, counterexample: with `budget = 0` the async client returns
`Other("Initial reuest budget was 0")` — not the `BudgetExceeded`
kind — while indeed performing no HTTP call. -/
theorem execute_with_retry_zero_budget_not_budget_exceeded :
    execute_with_retry 0 (fun _ => 0) (fun _ => 0)
        (fun _ => .error (.Server "oops")) 3 =
      (.error (.Other "Initial reuest budget was 0"), 0) ∧
    (Except.error (.Other "Initial reuest budget was 0") : TokenInfoResult) ≠
      .error .BudgetExceeded := by
  refine ⟨rfl, by simp⟩

/-- C6, amended: for every call with `budget = 0` the client returns the
terminal error `Other("Initial reuest budget was 0")` and performs no
HTTP call; `BudgetExceeded` is produced only when the deadline has
already passed when a retry attempt would start. -/
theorem execute_with_retry_zero_budget (act_times cond_times : Nat → Nat)
    (outcomes : Nat → TokenInfoResult) (fuel : Nat) :
    execute_with_retry 0 act_times cond_times outcomes fuel =
      (.error (.Other "Initial reuest budget was 0"), 0) := by
  simp [execute_with_retry]

/-- C7: `evaluate_response` maps status 400 to
`BadAuthorizationRequest` and 5xx to the retriable `Server` error as
claimed, but it wraps every other 4xx (here 404) in `Server` as well —
not in the terminal `Client` error, which it reserves for statuses
outside 4xx/5xx — contradicting the `Client` variant's own
documentation ("an error from the client side"). -/
theorem evaluate_response_classifies_other_4xx_as_server :
    evaluate_response 400 (.ok sample_rsp) (.ok ⟨.InvalidRequest, none, none⟩)
        (some "bad") =
      .error (.BadAuthorizationRequest ⟨.InvalidRequest, none, none⟩) ∧
    evaluate_response 503 (.ok sample_rsp) (.ok ⟨.InvalidRequest, none, none⟩)
        (some "oops") =
      .error (.Server
        "The authorization server returned an error(503): oops") ∧
    evaluate_response 404 (.ok sample_rsp) (.ok ⟨.InvalidRequest, none, none⟩)
        (some "nf") =
      .error (.Server
        "The request sent to the authorization server was faulty(404): nf") := by
  refine ⟨rfl, ?_, ?_⟩ <;>
    · simp [evaluate_response]
      rfl

/-- `check_notifications` never changes the lifecycle state. -/
theorem check_notifications_token_state (row : TokenRow) (now interval : Nat) :
    (check_notifications row now interval).token_state = row.token_state := by
  unfold check_notifications
  dsimp only
  repeat' split
  all_goals rfl

/-- A scheduling decision that emits no command leaves the row of the
decision unchanged. -/
theorem sched_row_decision_none_eq (row : TokenRow) (i now : Nat)
    (h : (sched_row_decision row i now).2 = none) :
    (sched_row_decision row i now).1 = row := by
  unfold sched_row_decision at h ⊢
  by_cases hs : row.scheduled_for ≤ now
  · rw [if_pos hs] at h ⊢
    revert h
    cases hstate : row.token_state <;> intro h <;> simp_all
  · rw [if_neg hs]

/-- A scheduling decision that emits a command addresses the decided
row's index, moves the row into a pending state, and only fires on a
non-pending row. -/
theorem sched_row_decision_some_spec (row : TokenRow) (i now : Nat)
    (c : ManagerCommand) (h : (sched_row_decision row i now).2 = some c) :
    c.idx = some i ∧
    (sched_row_decision row i now).1.token_state.is_refresh_pending = true ∧
    row.token_state.is_refresh_pending = false := by
  unfold sched_row_decision at h ⊢
  by_cases hs : row.scheduled_for ≤ now
  · rw [if_pos hs] at h ⊢
    revert h
    cases hstate : row.token_state <;> intro h <;> simp at h <;>
      (try subst h) <;>
      simp_all [ManagerCommand.idx, TokenState.is_refresh_pending]
  · rw [if_neg hs] at h
    simp at h

/-- A scheduling decision that emits a command fires only on rows in
`Uninitialized`, `Ok` or `Error`. -/
theorem sched_row_decision_emitting_states (row : TokenRow) (i now : Nat)
    (c : ManagerCommand) (h : (sched_row_decision row i now).2 = some c) :
    row.token_state = .Uninitialized ∨ row.token_state = .Ok ∨
      row.token_state = .Error := by
  unfold sched_row_decision at h
  by_cases hs : row.scheduled_for ≤ now
  · rw [if_pos hs] at h
    revert h
    cases hstate : row.token_state <;> intro h <;> simp_all
  · rw [if_neg hs] at h
    simp at h

/-- Outstanding-command counts are additive over channel
concatenation. -/
theorem outstanding_for_append (l₁ l₂ : List ManagerCommand) (i : Nat) :
    outstanding_for (l₁ ++ l₂) i =
      outstanding_for l₁ i + outstanding_for l₂ i := by
  simp [outstanding_for, List.filter_append]

/-- Outstanding-command count of a cons cell. -/
theorem outstanding_for_cons (c : ManagerCommand) (l : List ManagerCommand)
    (i : Nat) :
    outstanding_for (c :: l) i =
      (if c.idx = some i then 1 else 0) + outstanding_for l i := by
  simp only [outstanding_for, List.filter_cons]
  split
  · next hc =>
      rw [if_pos (by simpa using hc)]
      simp [Nat.add_comm]
  · next hc =>
      rw [if_neg (by simpa using hc)]
      simp

/-- A scheduler step on row `i` preserves the pending-states
invariant. -/
theorem pending_invariant_sched (s : SchedulerUpdaterState)
    (i now interval : Nat) (row : TokenRow) (hrow : s.rows[i]? = some row)
    (hinv : PendingInvariant s) :
    PendingInvariant
      { rows := s.rows.set i
          (check_notifications (sched_row_decision row i now).1 now interval)
        slots := s.slots
        chan := s.chan ++ (sched_row_decision row i now).2.toList } := by
  have hlen : i < s.rows.length := by
    have := List.getElem?_eq_some.mp hrow
    exact this.1
  intro j
  dsimp only
  rcases hd : (sched_row_decision row i now).2 with - | c
  · -- no command emitted: counts unchanged, decided row unchanged
    have h1 : (sched_row_decision row i now).1 = row :=
      sched_row_decision_none_eq row i now hd
    refine ⟨?_, ?_⟩
    · simpa [outstanding_for_append, outstanding_for] using (hinv j).1
    · intro row' hget hcnt
      rw [Option.toList_none, List.append_nil] at hcnt
      by_cases hij : i = j
      · subst hij
        rw [List.getElem?_set_eq_of_lt _ hlen] at hget
        cases hget
        rw [h1, check_notifications_token_state]
        exact (hinv i).2 row hrow hcnt
      · rw [List.getElem?_set_ne hij] at hget
        exact (hinv j).2 row' hget hcnt
  · -- a command was emitted: the decided row was not pending, so it had
    -- no outstanding command; afterwards it has exactly one
    obtain ⟨hcidx, hpend', hpend⟩ :=
      sched_row_decision_some_spec row i now c hd
    have hzero : outstanding_for s.chan i = 0 := by
      by_contra hne
      have h1le : 1 ≤ outstanding_for s.chan i :=
        Nat.one_le_iff_ne_zero.mpr hne
      have := (hinv i).2 row hrow h1le
      rw [this] at hpend
      cases hpend
    refine ⟨?_, ?_⟩
    · rw [outstanding_for_append]
      by_cases hij : i = j
      · subst hij
        rw [hzero]
        simp [outstanding_for, hcidx]
      · have hsingle : outstanding_for [c] j = 0 := by
          simp [outstanding_for, hcidx, hij]
        have := (hinv j).1
        rw [Option.toList_some]
        omega
    · intro row' hget hcnt
      by_cases hij : i = j
      · subst hij
        rw [List.getElem?_set_eq_of_lt _ hlen] at hget
        cases hget
        rw [check_notifications_token_state]
        exact hpend'
      · rw [List.getElem?_set_ne hij] at hget
        have hsingle : outstanding_for [c] j = 0 := by
          simp [outstanding_for, hcidx, hij]
        rw [Option.toList_some, outstanding_for_append] at hcnt
        exact (hinv j).2 row' hget (by omega)

/-- An updater step (consuming the channel head) preserves the
pending-states invariant. -/
theorem pending_invariant_updater (s : SchedulerUpdaterState)
    (cmd : ManagerCommand) (rest : List ManagerCommand) (i : Nat)
    (row : TokenRow) (slot : TokenSlot) (res : AccessTokenProviderResult)
    (now : Nat) (hchan : s.chan = cmd :: rest) (hidx : cmd.idx = some i)
    (hinv : PendingInvariant s) :
    PendingInvariant
      { rows := s.rows.set i (refresh_token row slot cmd.ts res now).1
        slots := s.slots.set i (refresh_token row slot cmd.ts res now).2.1
        chan := rest } := by
  intro j
  dsimp only
  have hcons := (hinv j).1
  rw [hchan, outstanding_for_cons] at hcons
  have hsplit : (if cmd.idx = some j then 1 else 0) +
      outstanding_for rest j ≤ 1 := hcons
  refine ⟨?_, ?_⟩
  · by_cases hc : cmd.idx = some j
    · rw [if_pos hc] at hsplit; omega
    · rw [if_neg hc] at hsplit; omega
  · intro row' hget hcnt
    by_cases hij : i = j
    · subst hij
      rw [hidx, if_pos rfl] at hsplit
      omega
    · rw [List.getElem?_set_ne hij] at hget
      have hle : 1 ≤ outstanding_for s.chan j := by
        rw [hchan, outstanding_for_cons]
        by_cases hc : cmd.idx = some j
        · rw [if_pos hc]; omega
        · rw [if_neg hc]; omega
      exact (hinv j).2 row' hget hle

/-- One interleaved step of the scheduler/updater pair preserves the
pending-states invariant. -/
theorem pending_invariant_step {s s' : SchedulerUpdaterState}
    (hstep : SchedStep s s') (hinv : PendingInvariant s) :
    PendingInvariant s' := by
  cases hstep with
  | sched i now interval row hrow =>
      exact pending_invariant_sched _ i now interval row hrow hinv
  | updater cmd rest i row slot res now hchan hidx hrow hslot =>
      exact pending_invariant_updater _ cmd rest i row slot res now
        hchan hidx hinv

/-- C8: the scheduler emits a refresh command only for rows in
`Uninitialized`, `Ok` or `Error` (never for a row whose refresh is
still pending), and in every execution of the interleaved
scheduler/updater machine started with an empty channel, at most one
scheduler-emitted command per row is outstanding, outstanding commands
existing only for rows in a pending state. -/
theorem scheduler_single_outstanding_command :
    (∀ (row : TokenRow) (i now : Nat) (c : ManagerCommand),
        (sched_row_decision row i now).2 = some c →
        row.token_state = .Uninitialized ∨ row.token_state = .Ok ∨
          row.token_state = .Error) ∧
    (∀ (rows0 : List TokenRow) (slots0 : List TokenSlot)
        (s : SchedulerUpdaterState),
        Relation.ReflTransGen SchedStep ⟨rows0, slots0, []⟩ s →
        PendingInvariant s) := by
  constructor
  · exact sched_row_decision_emitting_states
  · intro rows0 slots0 s h
    induction h with
    | refl =>
        intro j
        refine ⟨by simp [outstanding_for], ?_⟩
        intro row' _ hcnt
        simp [outstanding_for] at hcnt
    | tail _ hstep ih => exact pending_invariant_step hstep ih

/-- Witness for C8: the emitting-states lemma at a fresh row, and the
invariant at the initial state of a one-token manager. -/
theorem scheduler_single_outstanding_command_witness :
    (sample_row.token_state = .Uninitialized ∨ sample_row.token_state = .Ok ∨
      sample_row.token_state = .Error) ∧
    PendingInvariant ⟨[sample_row], fresh_slots, []⟩ :=
  ⟨scheduler_single_outstanding_command.1 sample_row 0 0
      (.ScheduledRefresh 0 0) rfl,
   scheduler_single_outstanding_command.2 [sample_row] fresh_slots
      ⟨[sample_row], fresh_slots, []⟩ Relation.ReflTransGen.refl⟩

end Tokkit
